import Mathlib

/-!
Verification of the EZ-WATCH alert relay decision engine
(`cloudflare/worker/src/index.ts`).

The Worker's `handleEvent` pipeline and its helpers are embedded as pure
Lean functions.  Platform facilities that the source calls out to are
modelled as explicit oracle parameters:

* `parseDate` stands for JavaScript `new Date(string)`; `none` models an
  unparseable timestamp (`Number.isNaN(date.getTime())`).
* `tzConv` stands for `localDayAndMinutes(utcDate, timezone)` at the fixed
  event instant of one request: it maps a timezone name to the civil
  weekday and minute-of-day, `none` modelling the `Intl.DateTimeFormat`
  constructor throwing on an invalid timezone name.
* `uuid` stands for the value `crypto.randomUUID()` returns during the
  request (the source calls it at most once per request).
* `fetchResult` stands for the result of the outbound Pushover `fetch`.

Durable Object storage is modelled as an association list from string keys
to integers; lookup returns the most recently put binding, matching
overwrite semantics.  The message text sent to Pushover does not influence
any decision outcome, so only the delivery result is modelled.
-/

namespace EzWatch

/-- The `VendorType` union of the source. -/
inductive Vendor
  | intelbras
  | hikvision
deriving DecidableEq, Repr

/-- The `EventType` union of the source. -/
inductive EventType
  | intrusion
  | line_cross
  | region_entry
  | loitering
  | face_match
  | camera_disconnect
deriving DecidableEq, Repr

/-- The `Severity` union of the source. -/
inductive Severity
  | low
  | medium
  | high
deriving DecidableEq, Repr

/-- The `DayOfWeek` union of the source. -/
inductive DayOfWeek
  | mon
  | tue
  | wed
  | thu
  | fri
  | sat
  | sun
deriving DecidableEq, Repr

/-- A JavaScript runtime value as far as `validateEvent` inspects one:
`undefined`, `null`, a string, a number (modelled as a rational), a
boolean, or any other object. -/
inductive JSVal
  | undef
  | null
  | str (s : String)
  | num (q : Rat)
  | jsbool (b : Bool)
  | obj
deriving DecidableEq, Repr

/-- JavaScript truthiness for the values of `JSVal` (`NaN` is not
representable in `Rat` and never arises in the modelled checks). -/
def JSVal.truthy : JSVal → Bool
  | .undef => false
  | .null => false
  | .str s => !(s == "")
  | .num q => !(q == 0)
  | .jsbool b => b
  | .obj => true

/-- Membership in the `VENDORS` set, returning the matched vendor. -/
def vendorOfString : String → Option Vendor
  | "intelbras" => some .intelbras
  | "hikvision" => some .hikvision
  | _ => none

/-- Membership in the `EVENT_TYPES` set, returning the matched event type. -/
def eventTypeOfString : String → Option EventType
  | "intrusion" => some .intrusion
  | "line_cross" => some .line_cross
  | "region_entry" => some .region_entry
  | "loitering" => some .loitering
  | "face_match" => some .face_match
  | "camera_disconnect" => some .camera_disconnect
  | _ => none

/-- The string form of a vendor, used to build metric keys. -/
def vendorString : Vendor → String
  | .intelbras => "intelbras"
  | .hikvision => "hikvision"

/-- The string form of an event type, used to build storage keys. -/
def eventTypeString : EventType → String
  | .intrusion => "intrusion"
  | .line_cross => "line_cross"
  | .region_entry => "region_entry"
  | .loitering => "loitering"
  | .face_match => "face_match"
  | .camera_disconnect => "camera_disconnect"

/-- `VENDORS.has(v)` applied to an arbitrary runtime value: only a string
that is one of the two vendor literals passes. -/
def jsVendor (v : JSVal) : Option Vendor :=
  if v.truthy then
    match v with
    | .str s => vendorOfString s
    | _ => none
  else none

/-- `EVENT_TYPES.has(v)` applied to an arbitrary runtime value. -/
def jsEventType (v : JSVal) : Option EventType :=
  if v.truthy then
    match v with
    | .str s => eventTypeOfString s
    | _ => none
  else none

/-- The check `!event.x || typeof event.x !== "string"`: passes exactly for
non-empty strings, returning the string. -/
def nonEmptyString : JSVal → Option String
  | .str s => if s = "" then none else some s
  | _ => none

/-- Decimal digit test, mirroring `\d` in the source regex. -/
def isDigitChar (c : Char) : Bool :=
  decide ('0' ≤ c ∧ c ≤ '9')

/-- Numeric value of a decimal digit character. -/
def digitVal (c : Char) : Nat :=
  c.toNat - '0'.toNat

/-- `parseHourMinute` of the source: accepts exactly the strict 24-hour
literals matched by the regex with hour 00-23 and minute 00-59, and
returns the minute-of-day `hour * 60 + minute`; anything else is `null`. -/
def parseHourMinute (value : String) : Option Nat :=
  match value.data with
  | [h1, h2, c, m1, m2] =>
    if c = ':'
        ∧ ((h1 = '0' ∨ h1 = '1') ∧ isDigitChar h2 ∨ h1 = '2' ∧ '0' ≤ h2 ∧ h2 ≤ '3')
        ∧ ('0' ≤ m1 ∧ m1 ≤ '5') ∧ isDigitChar m2 then
      some ((digitVal h1 * 10 + digitVal h2) * 60 + (digitVal m1 * 10 + digitVal m2))
    else none
  | _ => none

/-- The civil weekday and minute-of-day produced by
`localDayAndMinutes` for the event instant in some timezone. -/
structure LocalDM where
  day : DayOfWeek
  minutes : Nat
deriving DecidableEq, Repr

/-- A `ScheduleWindow` of the source; `start` and `stop` are the raw
`start`/`end` strings (the source field `end` is a Lean keyword). -/
structure ScheduleWindow where
  days : List DayOfWeek
  start : String
  stop : String
deriving DecidableEq, Repr

/-- An `ActiveSchedule` of the source; both fields are optional in the
configuration payload. -/
structure ActiveSchedule where
  timezone : Option String
  windows : Option (List ScheduleWindow)
deriving DecidableEq, Repr

/-- The per-window test inside the loop of `isActiveSchedule`: the weekday
must be in the window's day list, both bounds must parse, and the
minute-of-day must lie in the same-day interval when `start <= end`, or in
the overnight wraparound interval when `start > end`. -/
def windowActive (localDM : LocalDM) (window : ScheduleWindow) : Bool :=
  window.days.contains localDM.day &&
    match parseHourMinute window.start, parseHourMinute window.stop with
    | some start, some stop =>
      if start ≤ stop then
        decide (start ≤ localDM.minutes ∧ localDM.minutes ≤ stop)
      else
        decide (localDM.minutes ≥ start ∨ localDM.minutes ≤ stop)
    | _, _ => false

/-- `schedule.timezone || defaultTimezone`: the empty string and a missing
field are both falsy and fall back to the default. -/
def resolveTimezone (schedule : ActiveSchedule) (defaultTimezone : String) : String :=
  match schedule.timezone with
  | some tz => if tz = "" then defaultTimezone else tz
  | none => defaultTimezone

/-- `isActiveSchedule` of the source.  `conv` is the timezone-conversion
oracle for the event instant; `none` from the oracle models
`localDayAndMinutes` throwing.  The overall result is `none` exactly when
the uncaught second conversion failure propagates to the caller. -/
def isActiveSchedule (conv : String → Option LocalDM) (schedule : ActiveSchedule)
    (defaultTimezone : String) : Option Bool :=
  let timezone := resolveTimezone schedule defaultTimezone
  let windows := schedule.windows.getD []
  if windows.isEmpty then
    some true
  else
    match conv timezone with
    | some localDM => some (windows.any (windowActive localDM))
    | none =>
      match conv defaultTimezone with
      | some localDM => some (windows.any (windowActive localDM))
      | none => none

/-- A `ZoneConfig` of the source after `loadZones` normalisation (the
engine consumes the already-parsed zone policies; configuration loading is
an external collaborator). -/
structure ZoneConfig where
  zone_id : String
  site_id : String
  camera_ids : List String
  severity : Severity
  active_schedule : ActiveSchedule
  alert_destinations : List String
  suppression_window_sec : Int
  dedupe_window_sec : Int
deriving DecidableEq, Repr

/-- Durable Object storage restricted to the integer-valued keys the
pipeline touches.  A put prepends, and a get returns the most recent
binding, so the list behaves as a mutable key-value map. -/
abbrev Storage := List (String × Int)

/-- `state.storage.get(key)` for an integer-valued key. -/
def storageGet (st : Storage) (key : String) : Option Int :=
  (st.find? (fun kv => kv.1 == key)).map (fun kv => kv.2)

/-- `state.storage.put(key, value)`. -/
def storagePut (st : Storage) (key : String) (value : Int) : Storage :=
  (key, value) :: st

/-- `incrementCounter` of the source: read the counter (defaulting to 0)
and write back its successor. -/
def incrementCounter (st : Storage) (key : String) : Storage :=
  storagePut st key ((storageGet st key).getD 0 + 1)

/-- The gate test of the source, shared by the dedupe and suppression
checks: `window > 0 && last > 0 && nowSec - last < window`, where `last`
is the stored value defaulted to 0 when the key is absent. -/
def gateBlocked (windowSec : Int) (last : Option Int) (nowSec : Int) : Bool :=
  decide (windowSec > 0 ∧ last.getD 0 > 0 ∧ nowSec - last.getD 0 < windowSec)

/-- The dedupe gate key template of the source. -/
def dedupeKeyOf (zoneId cameraId : String) (eventType : EventType) : String :=
  "dedupe:" ++ (zoneId ++ ":" ++ cameraId ++ ":" ++ eventTypeString eventType)

/-- The suppression gate key template of the source. -/
def suppressKeyOf (zoneId cameraId : String) : String :=
  "suppress:" ++ (zoneId ++ ":" ++ cameraId)

/-- Prefix constant `METRIC_EVENTS_RECEIVED` of the source. -/
def METRIC_EVENTS_RECEIVED : String := "metric:events_received:"

/-- Prefix constant `METRIC_EVENTS_SUPPRESSED` of the source. -/
def METRIC_EVENTS_SUPPRESSED : String := "metric:events_suppressed:"

/-- Prefix constant `METRIC_ALERTS_SENT` of the source. -/
def METRIC_ALERTS_SENT : String := "metric:alerts_sent:pushover:"

/-- The Pushover-relevant environment bindings of the Worker. -/
structure PushoverEnv where
  enabled : Option String
  appToken : Option String
  userKey : Option String
deriving DecidableEq, Repr

/-- JavaScript falsiness of an optional environment string: missing or
empty. -/
def strFalsy : Option String → Bool
  | none => true
  | some s => s == ""

/-- The observable result of the outbound Pushover `fetch`. -/
inductive FetchOutcome
  | ok
  | httpErr
  | timeoutErr
  | netErr
deriving DecidableEq, Repr

/-- `sendPushover` of the source, reduced to its decision-relevant
behaviour: `none` means the delivery succeeded, `some reason` carries the
failure reason string.  The alert message text does not influence the
result. -/
def sendPushover (penv : PushoverEnv) (zone : ZoneConfig)
    (fetchResult : FetchOutcome) : Option String :=
  if !(zone.alert_destinations.contains ("pushover")
        || zone.alert_destinations.contains ("whatsapp")) then
    some "no_delivery_channel_configured"
  else if penv.enabled = some "false" then
    some "no_delivery_channel_configured"
  else if strFalsy penv.appToken || strFalsy penv.userKey then
    some "no_delivery_channel_configured"
  else
    match fetchResult with
    | .ok => none
    | .httpErr => some "pushover_send_failed"
    | .timeoutErr => some "pushover_timeout"
    | .netErr => some "pushover_send_failed"

/-- The runtime value of each field of the JSON object posted to
`/v1/events/cv`, before validation. -/
structure RawEvent where
  vendor : JSVal
  event_type : JSVal
  camera_id : JSVal
  camera_name : JSVal
  zone_id : JSVal
  timestamp_utc : JSVal
  confidence : JSVal
  media_url : JSVal
  raw_payload : JSVal
deriving DecidableEq, Repr

/-- A validated `CVEventIn` of the source. -/
structure CVEventIn where
  vendor : Vendor
  event_type : EventType
  camera_id : String
  camera_name : String
  zone_id : String
  timestamp_utc : String
  confidence : Option Rat
  media_url : Option String
deriving DecidableEq, Repr

/-- The confidence range check: the field may be `undefined` or `null`;
otherwise it must be a number within `[0, 1]`. -/
def confOK : JSVal → Bool
  | .undef => true
  | .null => true
  | .num q => decide (0 ≤ q ∧ q ≤ 1)
  | _ => false

/-- `event.confidence ?? null` after the range check. -/
def confOf : JSVal → Option Rat
  | .num q => some q
  | _ => none

/-- The media-url type check: `undefined`, `null` or any string. -/
def mediaOK : JSVal → Bool
  | .undef => true
  | .null => true
  | .str _ => true
  | _ => false

/-- `event.media_url ?? null` after the type check. -/
def mediaOf : JSVal → Option String
  | .str s => some s
  | _ => none

/-- The raw-payload check: `undefined` or a non-null object. -/
def rawOK : JSVal → Bool
  | .undef => true
  | .obj => true
  | _ => false

/-- `validateEvent` of the source.  The outer `Option` of the payload is
`none` when `JSON.parse` produced no truthy object; `parseDate` models
`new Date(...)` on the timestamp.  Checks run in source order and any
failure yields `none` (HTTP 400 `invalid_payload`). -/
def validateEvent (parseDate : String → Option Int)
    (payload : Option RawEvent) : Option CVEventIn :=
  match payload with
  | none => none
  | some event =>
    match jsVendor event.vendor with
    | none => none
    | some vendor =>
      match jsEventType event.event_type with
      | none => none
      | some event_type =>
        match nonEmptyString event.camera_id with
        | none => none
        | some camera_id =>
          match nonEmptyString event.camera_name with
          | none => none
          | some camera_name =>
            match nonEmptyString event.zone_id with
            | none => none
            | some zone_id =>
              match nonEmptyString event.timestamp_utc with
              | none => none
              | some timestamp_utc =>
                match parseDate timestamp_utc with
                | none => none
                | some _ =>
                  if confOK event.confidence then
                    if mediaOK event.media_url then
                      if rawOK event.raw_payload then
                        some ⟨vendor, event_type, camera_id, camera_name,
                          zone_id, timestamp_utc, confOf event.confidence,
                          mediaOf event.media_url⟩
                      else none
                    else none
                  else none

/-- A response body: either the bare `detail` object of an HTTP error, or
the structured outcome object with status, reason and correlation id. -/
inductive RespBody
  | detail (d : String)
  | outcome (status : String) (reason : Option String) (event_id : String)
deriving DecidableEq, Repr

/-- The observable result of one `handleEvent` invocation: an HTTP
response, or an uncaught exception propagating out of the handler. -/
inductive HResult
  | response (code : Nat) (body : RespBody)
  | thrown
deriving DecidableEq, Repr

/-- Everything one `handleEvent` invocation consumes besides storage. -/
structure HandleInput where
  body : Option (Option RawEvent)
  parseDate : String → Option Int
  zones : Option (List ZoneConfig)
  envDefaultTimezone : Option String
  tzConv : String → Option LocalDM
  nowSec : Int
  uuid : String
  penv : PushoverEnv
  fetchResult : FetchOutcome

/-- The result of one `handleEvent` invocation: the response, the final
storage, and the ordered list of counter keys passed to
`incrementCounter` during the request. -/
structure HandleOutput where
  result : HResult
  store : Storage
  counters : List String
deriving DecidableEq, Repr

/-- `this.env.DEFAULT_TIMEZONE || "America/Sao_Paulo"`. -/
def defaultTimezoneOf : Option String → String
  | some s => if s = "" then "America/Sao_Paulo" else s
  | none => "America/Sao_Paulo"

/-- `handleEvent` of the source, as a pure function over the modelled
inputs and storage.  The outer `Option` of `inp.body` is `none` when
`request.json()` throws.  Branches appear in source order: payload
validation, received counter, zone configuration, zone lookup, camera
membership, schedule, dedupe gate, suppression gate, delivery, and the
commit of both gate timestamps on success. -/
def handleEvent (inp : HandleInput) (st : Storage) : HandleOutput :=
  match inp.body with
  | none => ⟨.response 400 (.detail "invalid_payload"), st, []⟩
  | some payload =>
    match validateEvent inp.parseDate payload with
    | none => ⟨.response 400 (.detail "invalid_payload"), st, []⟩
    | some parsed =>
      let receivedKey := METRIC_EVENTS_RECEIVED
        ++ (vendorString parsed.vendor ++ ":" ++ eventTypeString parsed.event_type)
      let st1 := incrementCounter st receivedKey
      match inp.zones with
      | none => ⟨.response 500 (.detail "invalid_zone_config"), st1, [receivedKey]⟩
      | some zoneList =>
        match zoneList.find? (fun item => item.zone_id == parsed.zone_id) with
        | none => ⟨.response 400 (.detail "unknown_zone"), st1, [receivedKey]⟩
        | some zone =>
          if !(zone.camera_ids.contains parsed.camera_id) then
            ⟨.response 400 (.detail "camera_not_mapped_to_zone"), st1, [receivedKey]⟩
          else
            let defaultTimezone := defaultTimezoneOf inp.envDefaultTimezone
            match isActiveSchedule inp.tzConv zone.active_schedule defaultTimezone with
            | none => ⟨.thrown, st1, [receivedKey]⟩
            | some active =>
              if !active then
                let key := METRIC_EVENTS_SUPPRESSED ++ "outside_active_schedule"
                ⟨.response 200 (.outcome "suppressed" (some "outside_active_schedule") inp.uuid),
                  incrementCounter st1 key, [receivedKey, key]⟩
              else
                let dedupeKey := dedupeKeyOf zone.zone_id parsed.camera_id parsed.event_type
                let suppressKey := suppressKeyOf zone.zone_id parsed.camera_id
                if gateBlocked zone.dedupe_window_sec (storageGet st1 dedupeKey) inp.nowSec then
                  let key := METRIC_EVENTS_SUPPRESSED ++ "dedupe_window"
                  ⟨.response 200 (.outcome "suppressed" (some "dedupe_window") inp.uuid),
                    incrementCounter st1 key, [receivedKey, key]⟩
                else if gateBlocked zone.suppression_window_sec (storageGet st1 suppressKey) inp.nowSec then
                  let key := METRIC_EVENTS_SUPPRESSED ++ "suppression_window"
                  ⟨.response 200 (.outcome "suppressed" (some "suppression_window") inp.uuid),
                    incrementCounter st1 key, [receivedKey, key]⟩
                else
                  match sendPushover inp.penv zone inp.fetchResult with
                  | some reason =>
                    let key := METRIC_ALERTS_SENT ++ "failed"
                    ⟨.response 502 (.detail reason), incrementCounter st1 key, [receivedKey, key]⟩
                  | none =>
                    let key := METRIC_ALERTS_SENT ++ "success"
                    let st2 := incrementCounter st1 key
                    let st3 := storagePut st2 dedupeKey inp.nowSec
                    let st4 := storagePut st3 suppressKey inp.nowSec
                    ⟨.response 200 (.outcome "sent" none inp.uuid), st4, [receivedKey, key]⟩

/-- Classifier: does a handler result carry the `sent` status? -/
def isSentResult : HResult → Bool
  | .response _ (.outcome s _ _) => s == "sent"
  | _ => false

/-! ### Concrete fixtures used by witnesses and counterexamples -/

/-- A conversion oracle for which every timezone converts (Monday 10:00). -/
def convOK : String → Option LocalDM := fun _ => some ⟨.mon, 600⟩

/-- A conversion oracle for which every timezone conversion throws. -/
def convFail : String → Option LocalDM := fun _ => none

/-- A date-parsing oracle accepting every timestamp string. -/
def pdOK : String → Option Int := fun _ => some 1000

/-- A date-parsing oracle rejecting every timestamp string. -/
def pdFail : String → Option Int := fun _ => none

/-- An always-active zone mapping camera `cam-001`. -/
def zoneA : ZoneConfig :=
  ⟨"almoxarifado", "site-1", ["cam-001"], .high,
    ⟨some "America/Sao_Paulo", some []⟩, ["pushover"], 60, 30⟩

/-- A well-formed raw event for `zoneA`. -/
def goodRaw : RawEvent :=
  ⟨.str "intelbras", .str "intrusion", .str "cam-001", .str "Cam 1",
    .str "almoxarifado", .str "2026-01-01T12:00:00Z", .undef, .undef, .undef⟩

/-- A raw event naming a zone absent from the configuration. -/
def unknownZoneRaw : RawEvent :=
  ⟨.str "intelbras", .str "intrusion", .str "cam-001", .str "Cam 1",
    .str "nowhere", .str "2026-01-01T12:00:00Z", .undef, .undef, .undef⟩

/-- A fully configured Pushover environment. -/
def penvOK : PushoverEnv := ⟨some "true", some "tok", some "usr"⟩

/-- A request whose gates are all open and whose delivery succeeds. -/
def inpSent : HandleInput :=
  ⟨some (some goodRaw), pdOK, some [zoneA], some "America/Sao_Paulo", convOK,
    1000, "uuid-1", penvOK, .ok⟩

/-- A request whose JSON body fails to parse. -/
def inpParseFail : HandleInput :=
  ⟨none, pdOK, some [zoneA], some "America/Sao_Paulo", convOK,
    1000, "uuid-2", penvOK, .ok⟩

/-- A request for an unknown zone. -/
def inpUnknownZone : HandleInput :=
  ⟨some (some unknownZoneRaw), pdOK, some [zoneA], some "America/Sao_Paulo", convOK,
    1000, "uuid-3", penvOK, .ok⟩

/-- A duplicate of `inpSent` five seconds later with a different fresh id. -/
def inpSecond : HandleInput :=
  ⟨some (some goodRaw), pdOK, some [zoneA], some "America/Sao_Paulo", convOK,
    1005, "uuid-4", penvOK, .ok⟩

/-- The validated form of `goodRaw`. -/
def goodParsed : CVEventIn :=
  ⟨.intelbras, .intrusion, "cam-001", "Cam 1", "almoxarifado",
    "2026-01-01T12:00:00Z", none, none⟩

/-- The validated form of `unknownZoneRaw`. -/
def unknownParsed : CVEventIn :=
  ⟨.intelbras, .intrusion, "cam-001", "Cam 1", "nowhere",
    "2026-01-01T12:00:00Z", none, none⟩

/-- A raw event with a vendor outside the accepted set. -/
def badVendorRaw : RawEvent :=
  ⟨.str "acme", .str "intrusion", .str "cam-001", .str "Cam 1",
    .str "almoxarifado", .str "2026-01-01T12:00:00Z", .undef, .undef, .undef⟩

/-- A request carrying `badVendorRaw`. -/
def inpBadVendor : HandleInput :=
  ⟨some (some badVendorRaw), pdOK, some [zoneA], some "America/Sao_Paulo", convOK,
    1000, "uuid-5", penvOK, .ok⟩

/-- A raw event whose camera is not mapped to its zone. -/
def wrongCameraRaw : RawEvent :=
  ⟨.str "intelbras", .str "intrusion", .str "cam-999", .str "Cam 1",
    .str "almoxarifado", .str "2026-01-01T12:00:00Z", .undef, .undef, .undef⟩

/-- The validated form of `wrongCameraRaw`. -/
def wrongCamParsed : CVEventIn :=
  ⟨.intelbras, .intrusion, "cam-999", "Cam 1", "almoxarifado",
    "2026-01-01T12:00:00Z", none, none⟩

/-- A request carrying `wrongCameraRaw`. -/
def inpWrongCamera : HandleInput :=
  ⟨some (some wrongCameraRaw), pdOK, some [zoneA], some "America/Sao_Paulo", convOK,
    1000, "uuid-6", penvOK, .ok⟩

/-- A zone active only during the overnight window 18:00-06:00. -/
def zoneNight : ZoneConfig :=
  ⟨"almoxarifado", "site-1", ["cam-001"], .high,
    ⟨some "America/Sao_Paulo",
      some [⟨[.mon, .tue, .wed, .thu, .fri, .sat, .sun], "18:00", "06:00"⟩]⟩,
    ["pushover"], 60, 30⟩

/-- A request against `zoneNight` at a local 10:00 instant. -/
def inpInactive : HandleInput :=
  ⟨some (some goodRaw), pdOK, some [zoneNight], some "America/Sao_Paulo", convOK,
    1000, "uuid-7", penvOK, .ok⟩

/-- Storage holding a recent dedupe record for the `goodRaw` key. -/
def stHotDedupe : Storage := [(dedupeKeyOf "almoxarifado" "cam-001" .intrusion, 995)]

/-- Storage holding a recent suppression record for the `goodRaw` camera. -/
def stHotSuppress : Storage := [(suppressKeyOf "almoxarifado" "cam-001", 995)]

/-- A Pushover environment with delivery explicitly disabled. -/
def penvOff : PushoverEnv := ⟨some "false", some "tok", some "usr"⟩

/-- A request whose delivery channel is disabled. -/
def inpNoChannel : HandleInput :=
  ⟨some (some goodRaw), pdOK, some [zoneA], some "America/Sao_Paulo", convOK,
    1000, "uuid-8", penvOff, .ok⟩

/-- A schedule with one window and a timezone that fails to convert. -/
def oneWindowSched : ActiveSchedule :=
  ⟨some "Mars/Olympus", some [⟨[.mon], "10:00", "11:00"⟩]⟩

/-- A schedule whose only window has malformed bounds. -/
def malformedSched : ActiveSchedule :=
  ⟨none, some [⟨[.mon], "9:00", "26:00"⟩]⟩

/-! ### Storage and string-key helper lemmas -/

lemma strDataAppend (s t : String) : (s ++ t).data = s.data ++ t.data := by
  cases s
  cases t
  rfl

lemma strNeOfDataNe (s t : String) (h : s.data ≠ t.data) : s ≠ t :=
  fun he => h (congrArg String.data he)

lemma consAppendNe (c1 c2 : Char) (h : c1 ≠ c2) (l1 l2 r1 r2 : List Char) :
    (c1 :: l1) ++ r1 ≠ (c2 :: l2) ++ r2 := by
  intro he
  simp only [List.cons_append, List.cons.injEq] at he
  exact h he.1

lemma dedupeNeMetric (a b : String) : "dedupe:" ++ a ≠ "metric:" ++ b := by
  apply strNeOfDataNe
  rw [strDataAppend, strDataAppend]
  exact consAppendNe 'd' 'm' (by decide) _ _ _ _

lemma suppressNeMetric (a b : String) : "suppress:" ++ a ≠ "metric:" ++ b := by
  apply strNeOfDataNe
  rw [strDataAppend, strDataAppend]
  exact consAppendNe 's' 'm' (by decide) _ _ _ _

lemma dedupeNeSuppress (a b : String) : "dedupe:" ++ a ≠ "suppress:" ++ b := by
  apply strNeOfDataNe
  rw [strDataAppend, strDataAppend]
  exact consAppendNe 'd' 's' (by decide) _ _ _ _

lemma receivedSplit (x : String) :
    METRIC_EVENTS_RECEIVED ++ x = "metric:" ++ ("events_received:" ++ x) := by
  show ("metric:" ++ "events_received:") ++ x = _
  exact String.append_assoc _ _ _

lemma suppressedSplit (x : String) :
    METRIC_EVENTS_SUPPRESSED ++ x = "metric:" ++ ("events_suppressed:" ++ x) := by
  show ("metric:" ++ "events_suppressed:") ++ x = _
  exact String.append_assoc _ _ _

lemma alertsSplit (x : String) :
    METRIC_ALERTS_SENT ++ x = "metric:" ++ ("alerts_sent:pushover:" ++ x) := by
  show ("metric:" ++ "alerts_sent:pushover:") ++ x = _
  exact String.append_assoc _ _ _

/-- A dedupe gate key is never a metric counter key. -/
lemma dedupeKeyNeReceived (z c : String) (et : EventType) (x : String) :
    dedupeKeyOf z c et ≠ METRIC_EVENTS_RECEIVED ++ x := by
  rw [receivedSplit]
  exact dedupeNeMetric _ _

lemma dedupeKeyNeSuppressed (z c : String) (et : EventType) (x : String) :
    dedupeKeyOf z c et ≠ METRIC_EVENTS_SUPPRESSED ++ x := by
  rw [suppressedSplit]
  exact dedupeNeMetric _ _

lemma dedupeKeyNeAlerts (z c : String) (et : EventType) (x : String) :
    dedupeKeyOf z c et ≠ METRIC_ALERTS_SENT ++ x := by
  rw [alertsSplit]
  exact dedupeNeMetric _ _

/-- A suppression gate key is never a metric counter key. -/
lemma suppressKeyNeReceived (z c x : String) :
    suppressKeyOf z c ≠ METRIC_EVENTS_RECEIVED ++ x := by
  rw [receivedSplit]
  exact suppressNeMetric _ _

lemma suppressKeyNeSuppressed (z c x : String) :
    suppressKeyOf z c ≠ METRIC_EVENTS_SUPPRESSED ++ x := by
  rw [suppressedSplit]
  exact suppressNeMetric _ _

lemma suppressKeyNeAlerts (z c x : String) :
    suppressKeyOf z c ≠ METRIC_ALERTS_SENT ++ x := by
  rw [alertsSplit]
  exact suppressNeMetric _ _

lemma dedupeKeyNeSuppressKey (z c : String) (et : EventType) (z2 c2 : String) :
    dedupeKeyOf z c et ≠ suppressKeyOf z2 c2 :=
  dedupeNeSuppress _ _

lemma storageGet_put_self (st : Storage) (k : String) (v : Int) :
    storageGet (storagePut st k v) k = some v := by
  simp [storageGet, storagePut, List.find?]

lemma storageGet_put_ne (st : Storage) (k g : String) (v : Int) (h : g ≠ k) :
    storageGet (storagePut st k v) g = storageGet st g := by
  have hbeq : (k == g) = false := by
    simp only [beq_eq_false_iff_ne]
    exact fun he => h he.symm
  simp [storageGet, storagePut, List.find?, hbeq]

lemma storageGet_increment_ne (st : Storage) (k g : String) (h : g ≠ k) :
    storageGet (incrementCounter st k) g = storageGet st g :=
  storageGet_put_ne _ _ _ _ h

/-- The received-counter write between validation and the gate reads does
not shadow any dedupe gate key. -/
lemma storageGet_received_dedupe (st : Storage) (m z c : String) (et : EventType) :
    storageGet (incrementCounter st (METRIC_EVENTS_RECEIVED ++ m)) (dedupeKeyOf z c et) =
      storageGet st (dedupeKeyOf z c et) :=
  storageGet_increment_ne _ _ _ (dedupeKeyNeReceived z c et m)

/-- The received-counter write does not shadow any suppression gate key. -/
lemma storageGet_received_suppress (st : Storage) (m z c : String) :
    storageGet (incrementCounter st (METRIC_EVENTS_RECEIVED ++ m)) (suppressKeyOf z c) =
      storageGet st (suppressKeyOf z c) :=
  storageGet_increment_ne _ _ _ (suppressKeyNeReceived z c m)

/-- A suppression-counter write does not shadow any dedupe gate key. -/
lemma storageGet_suppCounter_dedupe (st : Storage) (m z c : String) (et : EventType) :
    storageGet (incrementCounter st (METRIC_EVENTS_SUPPRESSED ++ m)) (dedupeKeyOf z c et) =
      storageGet st (dedupeKeyOf z c et) :=
  storageGet_increment_ne _ _ _ (dedupeKeyNeSuppressed z c et m)

/-- A suppression-counter write does not shadow any suppression gate key. -/
lemma storageGet_suppCounter_suppress (st : Storage) (m z c : String) :
    storageGet (incrementCounter st (METRIC_EVENTS_SUPPRESSED ++ m)) (suppressKeyOf z c) =
      storageGet st (suppressKeyOf z c) :=
  storageGet_increment_ne _ _ _ (suppressKeyNeSuppressed z c m)

/-- A delivery-counter write does not shadow any dedupe gate key. -/
lemma storageGet_alerts_dedupe (st : Storage) (m z c : String) (et : EventType) :
    storageGet (incrementCounter st (METRIC_ALERTS_SENT ++ m)) (dedupeKeyOf z c et) =
      storageGet st (dedupeKeyOf z c et) :=
  storageGet_increment_ne _ _ _ (dedupeKeyNeAlerts z c et m)

/-- A delivery-counter write does not shadow any suppression gate key. -/
lemma storageGet_alerts_suppress (st : Storage) (m z c : String) :
    storageGet (incrementCounter st (METRIC_ALERTS_SENT ++ m)) (suppressKeyOf z c) =
      storageGet st (suppressKeyOf z c) :=
  storageGet_increment_ne _ _ _ (suppressKeyNeAlerts z c m)

/-- A suppression gate commit does not shadow any dedupe gate key. -/
lemma storageGet_putSuppress_dedupe (st : Storage) (z c : String) (et : EventType)
    (z2 c2 : String) (v : Int) :
    storageGet (storagePut st (suppressKeyOf z2 c2) v) (dedupeKeyOf z c et) =
      storageGet st (dedupeKeyOf z c et) :=
  storageGet_put_ne _ _ _ _ (dedupeKeyNeSuppressKey z c et z2 c2)

/-- Exhaustive branch characterization of one `handleEvent` invocation:
every run is one of the eight source branches, with the response, the
final storage and the counter trace of that branch. -/
lemma handleEvent_shape (inp : HandleInput) (st : Storage) :
    handleEvent inp st = ⟨.response 400 (.detail "invalid_payload"), st, []⟩ ∨
    (∃ m, handleEvent inp st =
      ⟨.response 500 (.detail "invalid_zone_config"),
        incrementCounter st (METRIC_EVENTS_RECEIVED ++ m),
        [METRIC_EVENTS_RECEIVED ++ m]⟩) ∨
    (∃ m, handleEvent inp st =
      ⟨.response 400 (.detail "unknown_zone"),
        incrementCounter st (METRIC_EVENTS_RECEIVED ++ m),
        [METRIC_EVENTS_RECEIVED ++ m]⟩) ∨
    (∃ m, handleEvent inp st =
      ⟨.response 400 (.detail "camera_not_mapped_to_zone"),
        incrementCounter st (METRIC_EVENTS_RECEIVED ++ m),
        [METRIC_EVENTS_RECEIVED ++ m]⟩) ∨
    (∃ m, handleEvent inp st =
      ⟨.thrown, incrementCounter st (METRIC_EVENTS_RECEIVED ++ m),
        [METRIC_EVENTS_RECEIVED ++ m]⟩) ∨
    (∃ m r, (r = "outside_active_schedule" ∨ r = "dedupe_window" ∨
        r = "suppression_window") ∧
      handleEvent inp st =
        ⟨.response 200 (.outcome "suppressed" (some r) inp.uuid),
          incrementCounter (incrementCounter st (METRIC_EVENTS_RECEIVED ++ m))
            (METRIC_EVENTS_SUPPRESSED ++ r),
          [METRIC_EVENTS_RECEIVED ++ m, METRIC_EVENTS_SUPPRESSED ++ r]⟩) ∨
    (∃ m reason, handleEvent inp st =
      ⟨.response 502 (.detail reason),
        incrementCounter (incrementCounter st (METRIC_EVENTS_RECEIVED ++ m))
          (METRIC_ALERTS_SENT ++ "failed"),
        [METRIC_EVENTS_RECEIVED ++ m, METRIC_ALERTS_SENT ++ "failed"]⟩) ∨
    (∃ m z c et, handleEvent inp st =
      ⟨.response 200 (.outcome "sent" none inp.uuid),
        storagePut (storagePut
          (incrementCounter (incrementCounter st (METRIC_EVENTS_RECEIVED ++ m))
            (METRIC_ALERTS_SENT ++ "success"))
          (dedupeKeyOf z c et) inp.nowSec) (suppressKeyOf z c) inp.nowSec,
        [METRIC_EVENTS_RECEIVED ++ m, METRIC_ALERTS_SENT ++ "success"]⟩) := by
  cases hb : inp.body with
  | none =>
    exact Or.inl (by simp [handleEvent, hb])
  | some p =>
    cases hv : validateEvent inp.parseDate p with
    | none =>
      exact Or.inl (by simp [handleEvent, hb, hv])
    | some parsed =>
      cases hz : inp.zones with
      | none =>
        exact Or.inr (Or.inl
          ⟨vendorString parsed.vendor ++ ":" ++ eventTypeString parsed.event_type,
            by simp [handleEvent, hb, hv, hz]⟩)
      | some zs =>
        cases hf : zs.find? (fun item => item.zone_id == parsed.zone_id) with
        | none =>
          exact Or.inr (Or.inr (Or.inl
            ⟨vendorString parsed.vendor ++ ":" ++ eventTypeString parsed.event_type,
              by simp [handleEvent, hb, hv, hz, hf]⟩))
        | some zone =>
          by_cases hc : parsed.camera_id ∈ zone.camera_ids
          case neg =>
            exact Or.inr (Or.inr (Or.inr (Or.inl
              ⟨vendorString parsed.vendor ++ ":" ++ eventTypeString parsed.event_type,
                by simp [handleEvent, hb, hv, hz, hf, hc]⟩)))
          case pos =>
            cases ha : isActiveSchedule inp.tzConv zone.active_schedule
                (defaultTimezoneOf inp.envDefaultTimezone) with
            | none =>
              exact Or.inr (Or.inr (Or.inr (Or.inr (Or.inl
                ⟨vendorString parsed.vendor ++ ":" ++ eventTypeString parsed.event_type,
                  by simp [handleEvent, hb, hv, hz, hf, hc, ha]⟩))))
            | some active =>
              cases active with
              | false =>
                exact Or.inr (Or.inr (Or.inr (Or.inr (Or.inr (Or.inl
                  ⟨vendorString parsed.vendor ++ ":" ++ eventTypeString parsed.event_type,
                    "outside_active_schedule", Or.inl rfl,
                    by simp [handleEvent, hb, hv, hz, hf, hc, ha]⟩)))))
              | true =>
                cases hg1 : gateBlocked zone.dedupe_window_sec
                    (storageGet (incrementCounter st (METRIC_EVENTS_RECEIVED
                      ++ (vendorString parsed.vendor ++ ":"
                        ++ eventTypeString parsed.event_type)))
                      (dedupeKeyOf zone.zone_id parsed.camera_id parsed.event_type))
                    inp.nowSec with
                | true =>
                  exact Or.inr (Or.inr (Or.inr (Or.inr (Or.inr (Or.inl
                    ⟨vendorString parsed.vendor ++ ":" ++ eventTypeString parsed.event_type,
                      "dedupe_window", Or.inr (Or.inl rfl),
                      by simp [handleEvent, hb, hv, hz, hf, hc, ha, hg1]⟩)))))
                | false =>
                  cases hg2 : gateBlocked zone.suppression_window_sec
                      (storageGet (incrementCounter st (METRIC_EVENTS_RECEIVED
                        ++ (vendorString parsed.vendor ++ ":"
                          ++ eventTypeString parsed.event_type)))
                        (suppressKeyOf zone.zone_id parsed.camera_id))
                      inp.nowSec with
                  | true =>
                    exact Or.inr (Or.inr (Or.inr (Or.inr (Or.inr (Or.inl
                      ⟨vendorString parsed.vendor ++ ":" ++ eventTypeString parsed.event_type,
                        "suppression_window", Or.inr (Or.inr rfl),
                        by simp [handleEvent, hb, hv, hz, hf, hc, ha, hg1, hg2]⟩)))))
                  | false =>
                    cases hs2 : sendPushover inp.penv zone inp.fetchResult with
                    | some reason =>
                      exact Or.inr (Or.inr (Or.inr (Or.inr (Or.inr (Or.inr (Or.inl
                        ⟨vendorString parsed.vendor ++ ":" ++ eventTypeString parsed.event_type,
                          reason,
                          by simp [handleEvent, hb, hv, hz, hf, hc, ha, hg1, hg2, hs2]⟩))))))
                    | none =>
                      exact Or.inr (Or.inr (Or.inr (Or.inr (Or.inr (Or.inr (Or.inr
                        ⟨vendorString parsed.vendor ++ ":" ++ eventTypeString parsed.event_type,
                          zone.zone_id, parsed.camera_id, parsed.event_type,
                          by simp [handleEvent, hb, hv, hz, hf, hc, ha, hg1, hg2, hs2]⟩))))))

/-- Necessary conditions carried by a successful validation: each check of
`validateEvent` passed on the raw payload. -/
lemma validateEvent_some (pd : String → Option Int) (e : RawEvent) (parsed : CVEventIn)
    (h : validateEvent pd (some e) = some parsed) :
    jsVendor e.vendor = some parsed.vendor ∧
    jsEventType e.event_type = some parsed.event_type ∧
    nonEmptyString e.timestamp_utc = some parsed.timestamp_utc ∧
    pd parsed.timestamp_utc ≠ none ∧
    confOK e.confidence = true ∧
    parsed.confidence = confOf e.confidence := by
  simp only [validateEvent] at h
  split at h
  next => simp at h
  next vendor hjv =>
    split at h
    next => simp at h
    next etype hjet =>
      split at h
      next => simp at h
      next cid hcid =>
        split at h
        next => simp at h
        next cname hcname =>
          split at h
          next => simp at h
          next zid hzid =>
            split at h
            next => simp at h
            next ts hts =>
              split at h
              next => simp at h
              next t hpd =>
                split at h
                next hconf =>
                  split at h
                  next hmedia =>
                    split at h
                    next hraw =>
                      rw [Option.some.injEq] at h
                      subst h
                      exact ⟨hjv, hjet, hts, by simp [hpd], hconf, rfl⟩
                    next => simp at h
                  next => simp at h
                next => simp at h

/-- A confidence value that passed the range check and is numeric lies in
the unit interval. -/
lemma confOK_bounds (v : JSVal) (hv : confOK v = true) (q : Rat)
    (hq : confOf v = some q) : 0 ≤ q ∧ q ≤ 1 := by
  cases v with
  | num q2 =>
    simp only [confOf, Option.some.injEq] at hq
    subst hq
    simpa [confOK] using hv
  | undef => simp [confOf] at hq
  | null => simp [confOf] at hq
  | str s => simp [confOf] at hq
  | jsbool b => simp [confOf] at hq
  | obj => simp [confOf] at hq

/-- A lookup in storage after a put is either the value just written or a
lookup in the previous storage. -/
lemma storageGet_put_cases (st : Storage) (k2 k : String) (v2 v : Int)
    (h : storageGet (storagePut st k2 v2) k = some v) :
    v = v2 ∨ storageGet st k = some v := by
  by_cases hbe : (k2 == k) = true
  · simp only [storageGet, storagePut, List.find?, hbe] at h
    simp at h
    exact Or.inl (by omega)
  · have hbe2 : (k2 == k) = false := by simpa using hbe
    simp only [storageGet, storagePut, List.find?, hbe2] at h
    exact Or.inr h

/-- A counter increment keeps every stored value positive. -/
lemma increment_preserves_positive (st : Storage) (key : String)
    (hst : ∀ k v, storageGet st k = some v → 0 < v) :
    ∀ k v, storageGet (incrementCounter st key) k = some v → 0 < v := by
  intro k v h
  rcases storageGet_put_cases st key k _ v h with hv | hv
  · subst hv
    cases hg : storageGet st key with
    | none => simp [hg]
    | some w =>
      have := hst key w hg
      simp [hg]
      omega
  · exact hst k v hv

/-- A put of a positive value keeps every stored value positive. -/
lemma put_preserves_positive (st : Storage) (key : String) (val : Int)
    (hval : 0 < val) (hst : ∀ k v, storageGet st k = some v → 0 < v) :
    ∀ k v, storageGet (storagePut st key val) k = some v → 0 < v := by
  intro k v h
  rcases storageGet_put_cases st key k val v h with hv | hv
  · subst hv
    exact hval
  · exact hst k v hv

/-- Reachability support for the positivity hypothesis of the gate
semantics (Claim C3): if every value stored before a request is positive
and the request's decision instant is positive, every value stored after
the request is positive.  The pipeline writes only counter increments and
the decision instant, so a gate record with value 0 — which the storage
encoding would treat as absent — never arises from a run with real
wall-clock instants. -/
lemma handleEvent_preserves_positive (inp : HandleInput) (st : Storage)
    (hst : ∀ k v, storageGet st k = some v → 0 < v) (hnow : 0 < inp.nowSec) :
    ∀ k v, storageGet (handleEvent inp st).store k = some v → 0 < v := by
  rcases handleEvent_shape inp st with hh | ⟨m, hh⟩ | ⟨m, hh⟩ | ⟨m, hh⟩ | ⟨m, hh⟩ |
      ⟨m, r, hr, hh⟩ | ⟨m, reason, hh⟩ | ⟨m, z, c, et, hh⟩ <;> rw [hh]
  · exact hst
  · exact increment_preserves_positive _ _ hst
  · exact increment_preserves_positive _ _ hst
  · exact increment_preserves_positive _ _ hst
  · exact increment_preserves_positive _ _ hst
  · exact increment_preserves_positive _ _ (increment_preserves_positive _ _ hst)
  · exact increment_preserves_positive _ _ (increment_preserves_positive _ _ hst)
  · exact put_preserves_positive _ _ _ hnow
      (put_preserves_positive _ _ _ hnow
        (increment_preserves_positive _ _ (increment_preserves_positive _ _ hst)))

/-! ### Claim theorems -/

/-- Claim C1: the decision pipeline applies terminal outcomes in exactly
the spec's precedence, first applicable wins: a malformed event (unknown
vendor or event type, unparseable timestamp, out-of-range confidence,
wrong types) is rejected as invalid_payload before any zone or gate state
is consulted (the storage is untouched and no counter is incremented);
then an unknown zone (exact equality lookup) is rejected; then an
unmapped camera is rejected; then an inactive schedule suppresses; then a
blocked dedupe gate suppresses; then a blocked suppression gate
suppresses; then a missing channel or failed delivery fails with the
delivery-specific reason (a 502 `detail` response); otherwise the event
is sent. -/
theorem claim1_outcome_precedence (inp : HandleInput) (st : Storage) :
    (inp.body = none →
      (handleEvent inp st).result = .response 400 (.detail "invalid_payload") ∧
      (handleEvent inp st).store = st ∧ (handleEvent inp st).counters = []) ∧
    (∀ p, inp.body = some p → validateEvent inp.parseDate p = none →
      (handleEvent inp st).result = .response 400 (.detail "invalid_payload") ∧
      (handleEvent inp st).store = st ∧ (handleEvent inp st).counters = []) ∧
    (∀ (e : RawEvent) (parsed : CVEventIn),
        validateEvent inp.parseDate (some e) = some parsed →
        jsVendor e.vendor = some parsed.vendor ∧
        jsEventType e.event_type = some parsed.event_type ∧
        inp.parseDate parsed.timestamp_utc ≠ none ∧
        (∀ q, parsed.confidence = some q → 0 ≤ q ∧ q ≤ 1)) ∧
    (∀ p parsed zs, inp.body = some p →
        validateEvent inp.parseDate p = some parsed → inp.zones = some zs →
        zs.find? (fun item => item.zone_id == parsed.zone_id) = none →
        (handleEvent inp st).result = .response 400 (.detail "unknown_zone")) ∧
    (∀ p parsed zs zone, inp.body = some p →
        validateEvent inp.parseDate p = some parsed → inp.zones = some zs →
        zs.find? (fun item => item.zone_id == parsed.zone_id) = some zone →
        zone.camera_ids.contains parsed.camera_id = false →
        (handleEvent inp st).result =
          .response 400 (.detail "camera_not_mapped_to_zone")) ∧
    (∀ p parsed zs zone, inp.body = some p →
        validateEvent inp.parseDate p = some parsed → inp.zones = some zs →
        zs.find? (fun item => item.zone_id == parsed.zone_id) = some zone →
        zone.camera_ids.contains parsed.camera_id = true →
        isActiveSchedule inp.tzConv zone.active_schedule
          (defaultTimezoneOf inp.envDefaultTimezone) = some false →
        (handleEvent inp st).result =
          .response 200 (.outcome "suppressed" (some "outside_active_schedule") inp.uuid)) ∧
    (∀ p parsed zs zone, inp.body = some p →
        validateEvent inp.parseDate p = some parsed → inp.zones = some zs →
        zs.find? (fun item => item.zone_id == parsed.zone_id) = some zone →
        zone.camera_ids.contains parsed.camera_id = true →
        isActiveSchedule inp.tzConv zone.active_schedule
          (defaultTimezoneOf inp.envDefaultTimezone) = some true →
        gateBlocked zone.dedupe_window_sec
          (storageGet st (dedupeKeyOf zone.zone_id parsed.camera_id parsed.event_type))
          inp.nowSec = true →
        (handleEvent inp st).result =
          .response 200 (.outcome "suppressed" (some "dedupe_window") inp.uuid)) ∧
    (∀ p parsed zs zone, inp.body = some p →
        validateEvent inp.parseDate p = some parsed → inp.zones = some zs →
        zs.find? (fun item => item.zone_id == parsed.zone_id) = some zone →
        zone.camera_ids.contains parsed.camera_id = true →
        isActiveSchedule inp.tzConv zone.active_schedule
          (defaultTimezoneOf inp.envDefaultTimezone) = some true →
        gateBlocked zone.dedupe_window_sec
          (storageGet st (dedupeKeyOf zone.zone_id parsed.camera_id parsed.event_type))
          inp.nowSec = false →
        gateBlocked zone.suppression_window_sec
          (storageGet st (suppressKeyOf zone.zone_id parsed.camera_id))
          inp.nowSec = true →
        (handleEvent inp st).result =
          .response 200 (.outcome "suppressed" (some "suppression_window") inp.uuid)) ∧
    (∀ p parsed zs zone reason, inp.body = some p →
        validateEvent inp.parseDate p = some parsed → inp.zones = some zs →
        zs.find? (fun item => item.zone_id == parsed.zone_id) = some zone →
        zone.camera_ids.contains parsed.camera_id = true →
        isActiveSchedule inp.tzConv zone.active_schedule
          (defaultTimezoneOf inp.envDefaultTimezone) = some true →
        gateBlocked zone.dedupe_window_sec
          (storageGet st (dedupeKeyOf zone.zone_id parsed.camera_id parsed.event_type))
          inp.nowSec = false →
        gateBlocked zone.suppression_window_sec
          (storageGet st (suppressKeyOf zone.zone_id parsed.camera_id))
          inp.nowSec = false →
        sendPushover inp.penv zone inp.fetchResult = some reason →
        (handleEvent inp st).result = .response 502 (.detail reason)) ∧
    (∀ p parsed zs zone, inp.body = some p →
        validateEvent inp.parseDate p = some parsed → inp.zones = some zs →
        zs.find? (fun item => item.zone_id == parsed.zone_id) = some zone →
        zone.camera_ids.contains parsed.camera_id = true →
        isActiveSchedule inp.tzConv zone.active_schedule
          (defaultTimezoneOf inp.envDefaultTimezone) = some true →
        gateBlocked zone.dedupe_window_sec
          (storageGet st (dedupeKeyOf zone.zone_id parsed.camera_id parsed.event_type))
          inp.nowSec = false →
        gateBlocked zone.suppression_window_sec
          (storageGet st (suppressKeyOf zone.zone_id parsed.camera_id))
          inp.nowSec = false →
        sendPushover inp.penv zone inp.fetchResult = none →
        (handleEvent inp st).result =
          .response 200 (.outcome "sent" none inp.uuid)) := by
  refine ⟨?_, ?_, ?_, ?_, ?_, ?_, ?_, ?_, ?_, ?_⟩
  · intro hb
    refine ⟨?_, ?_, ?_⟩ <;> simp [handleEvent, hb]
  · intro p hb hv
    refine ⟨?_, ?_, ?_⟩ <;> simp [handleEvent, hb, hv]
  · intro e parsed hv
    obtain ⟨hjv, hjet, hts, hpd, hconf, hceq⟩ := validateEvent_some inp.parseDate e parsed hv
    refine ⟨hjv, hjet, hpd, fun q hq => ?_⟩
    rw [hceq] at hq
    exact confOK_bounds e.confidence hconf q hq
  · intro p parsed zs hb hv hz hf
    simp [handleEvent, hb, hv, hz, hf]
  · intro p parsed zs zone hb hv hz hf hc
    have hcm : parsed.camera_id ∉ zone.camera_ids := by simpa using hc
    simp [handleEvent, hb, hv, hz, hf, hcm]
  · intro p parsed zs zone hb hv hz hf hc ha
    have hcm : parsed.camera_id ∈ zone.camera_ids := by simpa using hc
    simp [handleEvent, hb, hv, hz, hf, hcm, ha]
  · intro p parsed zs zone hb hv hz hf hc ha hg1
    have hcm : parsed.camera_id ∈ zone.camera_ids := by simpa using hc
    simp [handleEvent, hb, hv, hz, hf, hcm, ha,
      storageGet_received_dedupe, hg1]
  · intro p parsed zs zone hb hv hz hf hc ha hg1 hg2
    have hcm : parsed.camera_id ∈ zone.camera_ids := by simpa using hc
    simp [handleEvent, hb, hv, hz, hf, hcm, ha,
      storageGet_received_dedupe, storageGet_received_suppress, hg1, hg2]
  · intro p parsed zs zone reason hb hv hz hf hc ha hg1 hg2 hsend
    have hcm : parsed.camera_id ∈ zone.camera_ids := by simpa using hc
    simp [handleEvent, hb, hv, hz, hf, hcm, ha,
      storageGet_received_dedupe, storageGet_received_suppress, hg1, hg2, hsend]
  · intro p parsed zs zone hb hv hz hf hc ha hg1 hg2 hsend
    have hcm : parsed.camera_id ∈ zone.camera_ids := by simpa using hc
    simp [handleEvent, hb, hv, hz, hf, hcm, ha,
      storageGet_received_dedupe, storageGet_received_suppress, hg1, hg2, hsend]

/-- Claim C3: a gate check passes exactly when the window is non-positive,
or no instant is recorded for the key, or the recorded instant is at least
the window length in the past; it blocks only when the window is positive,
a record exists, and the record is more recent than the window; with a
positive window, an event a gap after a recorded pass is blocked exactly
when the gap is shorter than the window; and a zero window never blocks.
The hypothesis that recorded instants are positive reflects that the
pipeline only ever records `Math.floor(Date.now() / 1000)` of a real
clock, which the storage encoding treats as absent when it is zero. -/
theorem claim3_gate_semantics :
    (∀ (w now : Int) (last : Option Int),
        (∀ t, last = some t → 0 < t) →
        (gateBlocked w last now = false ↔
          w ≤ 0 ∨ last = none ∨ ∃ t, last = some t ∧ now - t ≥ w)) ∧
    (∀ (now : Int) (last : Option Int), gateBlocked 0 last now = false) ∧
    (∀ (w tLast gap : Int), 0 < w → 0 < tLast →
        (gateBlocked w (some tLast) (tLast + gap) = true ↔ gap < w)) := by
  refine ⟨?_, ?_, ?_⟩
  · intro w now last hpos
    cases last with
    | none =>
      simp [gateBlocked]
    | some t =>
      have ht : 0 < t := hpos t rfl
      simp only [gateBlocked, Option.getD_some, decide_eq_false_iff_not,
        Option.some.injEq]
      constructor
      · intro hnot
        by_cases hw : w ≤ 0
        · exact Or.inl hw
        · refine Or.inr (Or.inr ⟨t, rfl, ?_⟩)
          omega
      · rintro (hw | hcontra | ⟨t2, ht2, hge⟩) h
        · omega
        · exact Option.some_ne_none t hcontra
        · subst ht2
          omega
  · intro now last
    cases last <;> simp [gateBlocked]
  · intro w tLast gap hw ht
    simp only [gateBlocked, Option.getD_some, decide_eq_true_eq]
    omega

/-- Witness for Claim C3 at concrete inputs: a record 50 seconds in the
past passes a 30-second gate, and a record 5 seconds in the past is
blocked by it. -/
theorem claim3_gate_semantics_witness :
    gateBlocked 30 (some 50) 100 = false ∧ gateBlocked 30 (some 95) 100 = true := by
  constructor
  · exact (claim3_gate_semantics.1 30 100 (some 50)
      (fun t ht => by simp at ht; omega)).mpr
      (Or.inr (Or.inr ⟨50, rfl, by omega⟩))
  · have h := (claim3_gate_semantics.2.2 30 95 5 (by omega) (by omega)).mpr (by omega)
    simpa using h

/-- Claim C6 as stated is false at a concrete input: the claim says a
00:00-23:59 window covers the whole day except the final minute, but the
final minute of the day (minute-of-day 1439, i.e. any instant in
23:59-24:00) does match the window, because the end bound is inclusive. -/
theorem claim6_final_minute_counterexample :
    windowActive ⟨.mon, 1439⟩ ⟨[.mon], "00:00", "23:59"⟩ = true := by decide

/-- Claim C6 (amended): for a window whose day set matches the local
weekday and whose bounds parse, `start <= end` matches exactly the
inclusive interval and `start > end` matches exactly the overnight
wraparound; an 18:00-06:00 window is active at 23:59 and 05:59 and not at
12:00; and a 00:00-23:59 window matches every minute of the day, the
final minute included. -/
theorem claim6_window_semantics_amended :
    (∀ (w : ScheduleWindow) (l : LocalDM) (s e : Nat),
        w.days.contains l.day = true →
        parseHourMinute w.start = some s →
        parseHourMinute w.stop = some e →
        ((s ≤ e → (windowActive l w = true ↔ s ≤ l.minutes ∧ l.minutes ≤ e)) ∧
         (e < s → (windowActive l w = true ↔ s ≤ l.minutes ∨ l.minutes ≤ e)))) ∧
    (∀ d : DayOfWeek,
        windowActive ⟨d, 1439⟩ ⟨[d], "18:00", "06:00"⟩ = true ∧
        windowActive ⟨d, 359⟩ ⟨[d], "18:00", "06:00"⟩ = true ∧
        windowActive ⟨d, 720⟩ ⟨[d], "18:00", "06:00"⟩ = false) ∧
    (∀ (d : DayOfWeek) (m : Nat), m ≤ 1439 →
        windowActive ⟨d, m⟩ ⟨[d], "00:00", "23:59"⟩ = true) := by
  refine ⟨?_, ?_, ?_⟩
  · intro w l s e hday hs he
    have hred : windowActive l w =
        (if s ≤ e then decide (s ≤ l.minutes ∧ l.minutes ≤ e)
          else decide (l.minutes ≥ s ∨ l.minutes ≤ e)) := by
      unfold windowActive
      rw [hday, hs, he]
      rfl
    constructor
    · intro hle
      rw [hred, if_pos hle]
      simp
    · intro hlt
      rw [hred, if_neg (by omega)]
      simp
  · intro d
    cases d <;> exact ⟨by decide, by decide, by decide⟩
  · intro d m hm
    have hred : windowActive ⟨d, m⟩ ⟨[d], "00:00", "23:59"⟩ =
        (if (0 : Nat) ≤ 1439 then decide ((0 : Nat) ≤ m ∧ m ≤ 1439)
          else decide (m ≥ 0 ∨ m ≤ 1439)) := by
      unfold windowActive
      have hd : ([d] : List DayOfWeek).contains d = true := by simp
      rw [hd]
      have hs : parseHourMinute "00:00" = some 0 := by decide
      have he : parseHourMinute "23:59" = some 1439 := by decide
      rw [hs, he]
      rfl
    rw [hred, if_pos (by omega)]
    simp
    omega

/-- Witness for Claim C6 (amended) at concrete inputs: a same-day window
10:00-12:00 on Tuesday is active at 11:00, an overnight window is active
at 23:59, and a 00:00-23:59 window is active at 01:40. -/
theorem claim6_window_semantics_amended_witness :
    windowActive ⟨.tue, 660⟩ ⟨[.tue], "10:00", "12:00"⟩ = true ∧
    windowActive ⟨.wed, 1439⟩ ⟨[.wed], "18:00", "06:00"⟩ = true ∧
    windowActive ⟨.thu, 100⟩ ⟨[.thu], "00:00", "23:59"⟩ = true := by
  refine ⟨?_, ?_, ?_⟩
  · exact ((claim6_window_semantics_amended.1 ⟨[.tue], "10:00", "12:00"⟩
      ⟨.tue, 660⟩ 600 720 (by decide) (by decide) (by decide)).1
      (by omega)).mpr (by decide)
  · exact (claim6_window_semantics_amended.2.1 .wed).1
  · exact claim6_window_semantics_amended.2.2 .thu 100 (by omega)

/-- Claim C7: a schedule whose window sequence is empty or absent is
always active, for every conversion oracle (hence every instant), every
schedule timezone and every default timezone. -/
theorem claim7_empty_windows_always_active (conv : String → Option LocalDM)
    (tz : Option String) (d : String) :
    isActiveSchedule conv ⟨tz, some []⟩ d = some true ∧
    isActiveSchedule conv ⟨tz, none⟩ d = some true :=
  ⟨rfl, rfl⟩

/-- Claim C8 as stated is false at a concrete input: when the resolved
timezone and the default timezone both fail to convert and the window
list is non-empty, the fallback conversion inside the catch block throws
and the exception propagates to the caller, so evaluation does not
complete with a boolean. -/
theorem claim8_totality_counterexample :
    isActiveSchedule convFail oneWindowSched "Bad/Zone" = none := rfl

/-- Claim C8 (amended): `isActive` resolves the timezone as the
schedule's (non-empty) timezone if present, otherwise the default; a
failed conversion with the resolved timezone falls back silently to the
default timezone; evaluation completes with a boolean exactly when the
window list is empty or either the resolved or the default timezone
converts — when both conversions fail the error propagates to the
caller. -/
theorem claim8_fallback_totality_amended (conv : String → Option LocalDM)
    (s : ActiveSchedule) (d : String) :
    ((isActiveSchedule conv s d).isSome =
      ((s.windows.getD []).isEmpty || (conv (resolveTimezone s d)).isSome
        || (conv d).isSome)) ∧
    (∀ l, conv (resolveTimezone s d) = some l →
        isActiveSchedule conv s d =
          some ((s.windows.getD []).isEmpty
            || (s.windows.getD []).any (windowActive l))) ∧
    (∀ l, conv (resolveTimezone s d) = none → conv d = some l →
        isActiveSchedule conv s d =
          some ((s.windows.getD []).isEmpty
            || (s.windows.getD []).any (windowActive l))) := by
  refine ⟨?_, ?_, ?_⟩
  · by_cases hw : (s.windows.getD []).isEmpty <;>
      cases h1 : conv (resolveTimezone s d) <;>
        cases h2 : conv d <;>
          simp [isActiveSchedule, hw, h1, h2]
  · intro l h1
    by_cases hw : (s.windows.getD []).isEmpty
    · have hnil : s.windows.getD [] = [] := by
        simpa [List.isEmpty_iff] using hw
      simp [isActiveSchedule, hnil]
    · simp [isActiveSchedule, hw, h1]
  · intro l h1 h2
    by_cases hw : (s.windows.getD []).isEmpty
    · have hnil : s.windows.getD [] = [] := by
        simpa [List.isEmpty_iff] using hw
      simp [isActiveSchedule, hnil]
    · simp [isActiveSchedule, hw, h1, h2]

/-- Witness for Claim C8 (amended): with an oracle that converts every
timezone to Monday 10:00 the one-window schedule evaluates through the
primary conversion to an active result, and with an oracle for which
every conversion fails the evaluation of the same schedule raises. -/
theorem claim8_fallback_totality_amended_witness :
    isActiveSchedule convOK oneWindowSched "America/Sao_Paulo" = some true ∧
    isActiveSchedule convFail oneWindowSched "Other/Zone" = none := by
  constructor
  · have h := (claim8_fallback_totality_amended convOK oneWindowSched
      "America/Sao_Paulo").2.1 ⟨.mon, 600⟩ rfl
    rw [h]
    decide
  · have h := (claim8_fallback_totality_amended convFail oneWindowSched
      "Other/Zone").1
    rcases hx : isActiveSchedule convFail oneWindowSched "Other/Zone" with _ | b
    · rfl
    · rw [hx] at h
      simp [convFail, oneWindowSched] at h

/-- Claim C10: a window whose start or end string is not a strict
two-digit 24-hour literal is skipped during matching and never matches;
consequently a non-empty window list in which every window is malformed
can never make the schedule active, and whenever the timezone conversion
completes the schedule evaluates to inactive — the opposite of the
always-active empty window list. -/
theorem claim10_malformed_windows :
    (∀ (l : LocalDM) (w : ScheduleWindow),
        parseHourMinute w.start = none ∨ parseHourMinute w.stop = none →
        windowActive l w = false) ∧
    (∀ (conv : String → Option LocalDM) (s : ActiveSchedule) (d : String)
        (ws : List ScheduleWindow),
        s.windows = some ws → ws ≠ [] →
        (∀ w ∈ ws, parseHourMinute w.start = none ∨ parseHourMinute w.stop = none) →
        (isActiveSchedule conv s d ≠ some true ∧
          ((conv (resolveTimezone s d)).isSome ∨ (conv d).isSome →
            isActiveSchedule conv s d = some false))) := by
  have hwin : ∀ (l : LocalDM) (w : ScheduleWindow),
      parseHourMinute w.start = none ∨ parseHourMinute w.stop = none →
      windowActive l w = false := by
    intro l w h
    unfold windowActive
    rcases h with h | h
    · rw [h]
      cases parseHourMinute w.stop <;> simp
    · rw [h]
      cases parseHourMinute w.start <;> simp
  refine ⟨hwin, ?_⟩
  intro conv s d ws hws hne hmal
  have hany : ∀ l : LocalDM, ws.any (windowActive l) = false := by
    intro l
    rw [List.any_eq_false]
    intro w hw
    simp only [Bool.not_eq_true]
    exact hwin l w (hmal w hw)
  have hemp : ws.isEmpty = false := by
    cases ws with
    | nil => exact absurd rfl hne
    | cons a t => rfl
  constructor
  · cases h1 : conv (resolveTimezone s d) with
    | some l =>
      simp [isActiveSchedule, hws, hemp, h1, hany l]
    | none =>
      cases h2 : conv d with
      | some l => simp [isActiveSchedule, hws, hemp, h1, h2, hany l]
      | none => simp [isActiveSchedule, hws, hemp, h1, h2]
  · intro hconv
    cases h1 : conv (resolveTimezone s d) with
    | some l =>
      simp [isActiveSchedule, hws, hemp, h1, hany l]
    | none =>
      cases h2 : conv d with
      | some l => simp [isActiveSchedule, hws, hemp, h1, h2, hany l]
      | none =>
        rw [h1, h2] at hconv
        simp at hconv

/-- Witness for Claim C10: the schedule whose only window is
`9:00`-`26:00` (both malformed) evaluates to inactive under an oracle
that converts, while the empty-window schedule is active. -/
theorem claim10_malformed_windows_witness :
    isActiveSchedule convOK malformedSched "America/Sao_Paulo" = some false := by
  exact (claim10_malformed_windows.2 convOK malformedSched "America/Sao_Paulo"
    [⟨[.mon], "9:00", "26:00"⟩] rfl (by simp)
    (by intro w hw; simp at hw; subst hw; left; decide)).2 (Or.inl (by simp [convOK]))

/-- Witness for Claim C1: one concrete request per precedence case, each
obtained by applying the precedence theorem with its hypotheses
discharged by evaluation. -/
theorem claim1_outcome_precedence_witness :
    (handleEvent inpParseFail []).result = .response 400 (.detail "invalid_payload") ∧
    (handleEvent inpBadVendor []).result = .response 400 (.detail "invalid_payload") ∧
    pdOK "2026-01-01T12:00:00Z" ≠ none ∧
    (handleEvent inpUnknownZone []).result = .response 400 (.detail "unknown_zone") ∧
    (handleEvent inpWrongCamera []).result =
      .response 400 (.detail "camera_not_mapped_to_zone") ∧
    (handleEvent inpInactive []).result =
      .response 200 (.outcome "suppressed" (some "outside_active_schedule") "uuid-7") ∧
    (handleEvent inpSecond stHotDedupe).result =
      .response 200 (.outcome "suppressed" (some "dedupe_window") "uuid-4") ∧
    (handleEvent inpSecond stHotSuppress).result =
      .response 200 (.outcome "suppressed" (some "suppression_window") "uuid-4") ∧
    (handleEvent inpNoChannel []).result =
      .response 502 (.detail "no_delivery_channel_configured") ∧
    (handleEvent inpSent []).result = .response 200 (.outcome "sent" none "uuid-1") := by
  refine ⟨?_, ?_, ?_, ?_, ?_, ?_, ?_, ?_, ?_, ?_⟩
  · exact ((claim1_outcome_precedence inpParseFail []).1 rfl).1
  · exact ((claim1_outcome_precedence inpBadVendor []).2.1
      (some badVendorRaw) rfl (by decide)).1
  · exact ((claim1_outcome_precedence inpSent []).2.2.1
      goodRaw goodParsed (by decide)).2.2.1
  · exact (claim1_outcome_precedence inpUnknownZone []).2.2.2.1
      (some unknownZoneRaw) unknownParsed [zoneA] rfl (by decide) rfl (by decide)
  · exact (claim1_outcome_precedence inpWrongCamera []).2.2.2.2.1
      (some wrongCameraRaw) wrongCamParsed [zoneA] zoneA rfl (by decide) rfl
      (by decide) (by decide)
  · exact (claim1_outcome_precedence inpInactive []).2.2.2.2.2.1
      (some goodRaw) goodParsed [zoneNight] zoneNight rfl (by decide) rfl
      (by decide) (by decide) (by decide)
  · exact (claim1_outcome_precedence inpSecond stHotDedupe).2.2.2.2.2.2.1
      (some goodRaw) goodParsed [zoneA] zoneA rfl (by decide) rfl
      (by decide) (by decide) (by decide) (by decide)
  · exact (claim1_outcome_precedence inpSecond stHotSuppress).2.2.2.2.2.2.2.1
      (some goodRaw) goodParsed [zoneA] zoneA rfl (by decide) rfl
      (by decide) (by decide) (by decide) (by decide) (by decide)
  · exact (claim1_outcome_precedence inpNoChannel []).2.2.2.2.2.2.2.2.1
      (some goodRaw) goodParsed [zoneA] zoneA "no_delivery_channel_configured"
      rfl (by decide) rfl (by decide) (by decide) (by decide) (by decide)
      (by decide) (by decide)
  · exact (claim1_outcome_precedence inpSent []).2.2.2.2.2.2.2.2.2
      (some goodRaw) goodParsed [zoneA] zoneA rfl (by decide) rfl
      (by decide) (by decide) (by decide) (by decide) (by decide) (by decide)

/-- Claim C2: gate timestamps are written if and only if the outcome is
sent: on any outcome other than sent, every dedupe and suppression gate
record is unchanged (counters are the only storage the other branches
touch); on a sent outcome both the event's dedupe key and suppression key
hold the decision instant, written only after the delivery attempt
succeeded. -/
theorem claim2_gate_commit (inp : HandleInput) (st : Storage) :
    (isSentResult (handleEvent inp st).result = false →
      ∀ (z c : String) (et : EventType),
        storageGet (handleEvent inp st).store (dedupeKeyOf z c et) =
          storageGet st (dedupeKeyOf z c et) ∧
        storageGet (handleEvent inp st).store (suppressKeyOf z c) =
          storageGet st (suppressKeyOf z c)) ∧
    (∀ p parsed zs zone, inp.body = some p →
        validateEvent inp.parseDate p = some parsed → inp.zones = some zs →
        zs.find? (fun item => item.zone_id == parsed.zone_id) = some zone →
        zone.camera_ids.contains parsed.camera_id = true →
        isActiveSchedule inp.tzConv zone.active_schedule
          (defaultTimezoneOf inp.envDefaultTimezone) = some true →
        gateBlocked zone.dedupe_window_sec
          (storageGet st (dedupeKeyOf zone.zone_id parsed.camera_id parsed.event_type))
          inp.nowSec = false →
        gateBlocked zone.suppression_window_sec
          (storageGet st (suppressKeyOf zone.zone_id parsed.camera_id))
          inp.nowSec = false →
        sendPushover inp.penv zone inp.fetchResult = none →
        isSentResult (handleEvent inp st).result = true ∧
        storageGet (handleEvent inp st).store
          (dedupeKeyOf zone.zone_id parsed.camera_id parsed.event_type) =
            some inp.nowSec ∧
        storageGet (handleEvent inp st).store
          (suppressKeyOf zone.zone_id parsed.camera_id) = some inp.nowSec) := by
  constructor
  · intro hns z c et
    rcases handleEvent_shape inp st with hh | ⟨m, hh⟩ | ⟨m, hh⟩ | ⟨m, hh⟩ | ⟨m, hh⟩ |
        ⟨m, r, hr, hh⟩ | ⟨m, reason, hh⟩ | ⟨m, z2, c2, et2, hh⟩
    · simp [hh]
    · simp [hh, storageGet_received_dedupe, storageGet_received_suppress]
    · simp [hh, storageGet_received_dedupe, storageGet_received_suppress]
    · simp [hh, storageGet_received_dedupe, storageGet_received_suppress]
    · simp [hh, storageGet_received_dedupe, storageGet_received_suppress]
    · simp [hh, storageGet_suppCounter_dedupe, storageGet_suppCounter_suppress,
        storageGet_received_dedupe, storageGet_received_suppress]
    · simp [hh, storageGet_alerts_dedupe, storageGet_alerts_suppress,
        storageGet_received_dedupe, storageGet_received_suppress]
    · rw [hh] at hns
      simp [isSentResult] at hns
  · intro p parsed zs zone hb hv hz hf hc ha hg1 hg2 hsend
    have hcm : parsed.camera_id ∈ zone.camera_ids := by simpa using hc
    refine ⟨?_, ?_, ?_⟩ <;>
      simp [handleEvent, hb, hv, hz, hf, hcm, ha,
        storageGet_received_dedupe, storageGet_received_suppress, hg1, hg2, hsend,
        isSentResult, storageGet_put_self, storageGet_putSuppress_dedupe]

/-- Witness for Claim C2: a rejected request leaves the gate record
absent, and the successful request commits both gate keys at the decision
instant. -/
theorem claim2_gate_commit_witness :
    storageGet (handleEvent inpParseFail []).store
      (dedupeKeyOf "almoxarifado" "cam-001" .intrusion) =
        storageGet ([] : Storage) (dedupeKeyOf "almoxarifado" "cam-001" .intrusion) ∧
    storageGet (handleEvent inpSent []).store
      (dedupeKeyOf "almoxarifado" "cam-001" .intrusion) = some 1000 ∧
    storageGet (handleEvent inpSent []).store
      (suppressKeyOf "almoxarifado" "cam-001") = some 1000 := by
  refine ⟨?_, ?_, ?_⟩
  · exact ((claim2_gate_commit inpParseFail []).1 (by decide)
      "almoxarifado" "cam-001" .intrusion).1
  · exact ((claim2_gate_commit inpSent []).2 (some goodRaw) goodParsed [zoneA]
      zoneA rfl (by decide) rfl (by decide) (by decide) (by decide) (by decide)
      (by decide) (by decide)).2.1
  · exact ((claim2_gate_commit inpSent []).2 (some goodRaw) goodParsed [zoneA]
      zoneA rfl (by decide) rfl (by decide) (by decide) (by decide) (by decide)
      (by decide) (by decide)).2.2

/-- Whenever a handler response carries the structured outcome body, its
event id is the request's freshly generated identifier and its status and
reason are one of the sent or suppressed combinations. -/
lemma handleEvent_outcome_values (inp : HandleInput) (st : Storage) (code : Nat)
    (s : String) (r : Option String) (e : String)
    (h : (handleEvent inp st).result = .response code (.outcome s r e)) :
    e = inp.uuid ∧ code = 200 ∧
      ((s = "sent" ∧ r = none) ∨
       (s = "suppressed" ∧
         (r = some "outside_active_schedule" ∨ r = some "dedupe_window" ∨
           r = some "suppression_window"))) := by
  rcases handleEvent_shape inp st with hh | ⟨m, hh⟩ | ⟨m, hh⟩ | ⟨m, hh⟩ | ⟨m, hh⟩ |
      ⟨m, rr, hrr, hh⟩ | ⟨m, reason, hh⟩ | ⟨m, z, c, et, hh⟩
  · rw [hh] at h
    simp at h
  · rw [hh] at h
    simp at h
  · rw [hh] at h
    simp at h
  · rw [hh] at h
    simp at h
  · rw [hh] at h
    simp at h
  · rw [hh] at h
    simp only [HResult.response.injEq, RespBody.outcome.injEq] at h
    obtain ⟨hcode, hs, hr, he⟩ := h
    refine ⟨he.symm, hcode.symm, Or.inr ⟨hs.symm, ?_⟩⟩
    rcases hrr with h1 | h1 | h1 <;> rw [← hr, h1]
    · exact Or.inl rfl
    · exact Or.inr (Or.inl rfl)
    · exact Or.inr (Or.inr rfl)
  · rw [hh] at h
    simp at h
  · rw [hh] at h
    simp only [HResult.response.injEq, RespBody.outcome.injEq] at h
    obtain ⟨hcode, hs, hr, he⟩ := h
    exact ⟨he.symm, hcode.symm, Or.inl ⟨hs.symm, hr.symm⟩⟩

/-- Claim C5 as stated is false at a concrete input: a malformed event is
a terminal rejected outcome, yet its response body is a bare
`detail` object with no status, reason or event id field. -/
theorem claim5_shape_counterexample :
    (handleEvent inpParseFail []).result = .response 400 (.detail "invalid_payload") ∧
    ¬ ∃ (code : Nat) (s : String) (r : Option String) (e : String),
        (handleEvent inpParseFail []).result = .response code (.outcome s r e) := by
  constructor
  · rfl
  · rintro ⟨code, s, r, e, h⟩
    rw [show (handleEvent inpParseFail []).result =
      .response 400 (.detail "invalid_payload") from rfl] at h
    simp at h

/-- Claim C5 (amended): only sent and suppressed outcomes carry the
structured shape with status, reason and event id, where the event id is
the request's freshly generated identifier (independent of event content,
so two requests with distinct generated identifiers return distinct event
ids even for identical events); rejected and failed outcomes are returned
as bare `detail` bodies. -/
theorem claim5_shape_amended (inp : HandleInput) (st : Storage) :
    (∀ (code : Nat) (s : String) (r : Option String) (e : String),
        (handleEvent inp st).result = .response code (.outcome s r e) →
        e = inp.uuid ∧ code = 200 ∧
          ((s = "sent" ∧ r = none) ∨
           (s = "suppressed" ∧
             (r = some "outside_active_schedule" ∨ r = some "dedupe_window" ∨
               r = some "suppression_window")))) ∧
    (∀ (inp2 : HandleInput) (st2 : Storage) (code2 : Nat) (s2 : String)
        (r2 : Option String) (e2 : String) (code : Nat) (s : String)
        (r : Option String) (e : String),
        inp2.uuid ≠ inp.uuid →
        (handleEvent inp2 st2).result = .response code2 (.outcome s2 r2 e2) →
        (handleEvent inp st).result = .response code (.outcome s r e) →
        e2 ≠ e) := by
  constructor
  · intro code s r e h
    exact handleEvent_outcome_values inp st code s r e h
  · intro inp2 st2 code2 s2 r2 e2 code s r e hne h2 h
    have hv2 := handleEvent_outcome_values inp2 st2 code2 s2 r2 e2 h2
    have hv1 := handleEvent_outcome_values inp st code s r e h
    rw [hv2.1, hv1.1]
    exact hne

/-- Witness for Claim C5 (amended): the sent response of the successful
request carries its generated identifier, and two identical events with
distinct generated identifiers receive distinct event ids. -/
theorem claim5_shape_amended_witness :
    ("uuid-1" : String) = inpSent.uuid ∧
    ("uuid-4" : String) ≠ ("uuid-1" : String) := by
  constructor
  · exact ((claim5_shape_amended inpSent []).1 200 "sent" none "uuid-1" (by decide)).1
  · exact (claim5_shape_amended inpSent []).2 inpSecond stHotSuppress 200
      "suppressed" (some "suppression_window") "uuid-4" 200 "sent" none "uuid-1"
      (by decide) (by decide) (by decide)

/-- Claim C9 as stated is false at a concrete input: a malformed event is
a terminal rejected outcome, yet the request increments no observability
counter at all — not exactly one. -/
theorem claim9_counter_counterexample :
    (handleEvent inpParseFail []).result = .response 400 (.detail "invalid_payload") ∧
    (handleEvent inpParseFail []).counters = [] := ⟨rfl, rfl⟩


/-- Exhaustive counter-trace characterization of a run whose payload
passed validation: the request's first counter is always the received
counter bucketed by the validated event's vendor and event type, on every
post-validation path — configuration error, unknown zone, unmapped
camera, schedule-evaluation exception, the three suppressions, delivery
failure and success — followed by at most the one outcome counter of the
branch. -/
lemma handleEvent_validated_counters (inp : HandleInput) (st : Storage)
    (p : Option RawEvent) (parsed : CVEventIn)
    (hb : inp.body = some p) (hv : validateEvent inp.parseDate p = some parsed) :
    ((handleEvent inp st).result = .response 500 (.detail "invalid_zone_config") ∧
      (handleEvent inp st).counters =
        [METRIC_EVENTS_RECEIVED ++ (vendorString parsed.vendor ++ ":"
          ++ eventTypeString parsed.event_type)]) ∨
    ((handleEvent inp st).result = .response 400 (.detail "unknown_zone") ∧
      (handleEvent inp st).counters =
        [METRIC_EVENTS_RECEIVED ++ (vendorString parsed.vendor ++ ":"
          ++ eventTypeString parsed.event_type)]) ∨
    ((handleEvent inp st).result = .response 400 (.detail "camera_not_mapped_to_zone") ∧
      (handleEvent inp st).counters =
        [METRIC_EVENTS_RECEIVED ++ (vendorString parsed.vendor ++ ":"
          ++ eventTypeString parsed.event_type)]) ∨
    ((handleEvent inp st).result = .thrown ∧
      (handleEvent inp st).counters =
        [METRIC_EVENTS_RECEIVED ++ (vendorString parsed.vendor ++ ":"
          ++ eventTypeString parsed.event_type)]) ∨
    (∃ rr, (handleEvent inp st).result =
        .response 200 (.outcome "suppressed" (some rr) inp.uuid) ∧
      (handleEvent inp st).counters =
        [METRIC_EVENTS_RECEIVED ++ (vendorString parsed.vendor ++ ":"
          ++ eventTypeString parsed.event_type),
          METRIC_EVENTS_SUPPRESSED ++ rr]) ∨
    (∃ reason, (handleEvent inp st).result = .response 502 (.detail reason) ∧
      (handleEvent inp st).counters =
        [METRIC_EVENTS_RECEIVED ++ (vendorString parsed.vendor ++ ":"
          ++ eventTypeString parsed.event_type),
          METRIC_ALERTS_SENT ++ "failed"]) ∨
    ((handleEvent inp st).result = .response 200 (.outcome "sent" none inp.uuid) ∧
      (handleEvent inp st).counters =
        [METRIC_EVENTS_RECEIVED ++ (vendorString parsed.vendor ++ ":"
          ++ eventTypeString parsed.event_type),
          METRIC_ALERTS_SENT ++ "success"]) := by
  cases hz : inp.zones with
  | none =>
    exact Or.inl ⟨by simp [handleEvent, hb, hv, hz], by simp [handleEvent, hb, hv, hz]⟩
  | some zs =>
    cases hf : zs.find? (fun item => item.zone_id == parsed.zone_id) with
    | none =>
      exact Or.inr (Or.inl
        ⟨by simp [handleEvent, hb, hv, hz, hf], by simp [handleEvent, hb, hv, hz, hf]⟩)
    | some zone =>
      by_cases hc : parsed.camera_id ∈ zone.camera_ids
      case neg =>
        exact Or.inr (Or.inr (Or.inl
          ⟨by simp [handleEvent, hb, hv, hz, hf, hc],
            by simp [handleEvent, hb, hv, hz, hf, hc]⟩))
      case pos =>
        cases ha : isActiveSchedule inp.tzConv zone.active_schedule
            (defaultTimezoneOf inp.envDefaultTimezone) with
        | none =>
          exact Or.inr (Or.inr (Or.inr (Or.inl
            ⟨by simp [handleEvent, hb, hv, hz, hf, hc, ha],
              by simp [handleEvent, hb, hv, hz, hf, hc, ha]⟩)))
        | some active =>
          cases active with
          | false =>
            exact Or.inr (Or.inr (Or.inr (Or.inr (Or.inl
              ⟨"outside_active_schedule",
                by simp [handleEvent, hb, hv, hz, hf, hc, ha],
                by simp [handleEvent, hb, hv, hz, hf, hc, ha]⟩))))
          | true =>
            cases hg1 : gateBlocked zone.dedupe_window_sec
                (storageGet (incrementCounter st (METRIC_EVENTS_RECEIVED
                  ++ (vendorString parsed.vendor ++ ":"
                    ++ eventTypeString parsed.event_type)))
                  (dedupeKeyOf zone.zone_id parsed.camera_id parsed.event_type))
                inp.nowSec with
            | true =>
              exact Or.inr (Or.inr (Or.inr (Or.inr (Or.inl
                ⟨"dedupe_window",
                  by simp [handleEvent, hb, hv, hz, hf, hc, ha, hg1],
                  by simp [handleEvent, hb, hv, hz, hf, hc, ha, hg1]⟩))))
            | false =>
              cases hg2 : gateBlocked zone.suppression_window_sec
                  (storageGet (incrementCounter st (METRIC_EVENTS_RECEIVED
                    ++ (vendorString parsed.vendor ++ ":"
                      ++ eventTypeString parsed.event_type)))
                    (suppressKeyOf zone.zone_id parsed.camera_id))
                  inp.nowSec with
              | true =>
                exact Or.inr (Or.inr (Or.inr (Or.inr (Or.inl
                  ⟨"suppression_window",
                    by simp [handleEvent, hb, hv, hz, hf, hc, ha, hg1, hg2],
                    by simp [handleEvent, hb, hv, hz, hf, hc, ha, hg1, hg2]⟩))))
              | false =>
                cases hs2 : sendPushover inp.penv zone inp.fetchResult with
                | some reason =>
                  exact Or.inr (Or.inr (Or.inr (Or.inr (Or.inr (Or.inl
                    ⟨reason,
                      by simp [handleEvent, hb, hv, hz, hf, hc, ha, hg1, hg2, hs2],
                      by simp [handleEvent, hb, hv, hz, hf, hc, ha, hg1, hg2, hs2]⟩)))))
                | none =>
                  exact Or.inr (Or.inr (Or.inr (Or.inr (Or.inr (Or.inr
                    ⟨by simp [handleEvent, hb, hv, hz, hf, hc, ha, hg1, hg2, hs2],
                      by simp [handleEvent, hb, hv, hz, hf, hc, ha, hg1, hg2, hs2]⟩)))))

/-- Claim C9 (amended): malformed events increment no counter at all;
every event passing validation increments, as the request's first
counter, the received counter bucketed by the event's vendor and event
type — on every post-validation path, configuration errors and
schedule-evaluation exceptions included — followed by at most one further
counter; zone and camera rejections (and configuration errors and
schedule-evaluation exceptions) increment nothing further; a suppressed
outcome additionally increments exactly one suppression counter bucketed
by the outcome's reason; a failed outcome increments the delivery counter
bucketed by failed status (not by the delivery-specific reason); a sent
outcome increments the delivery success counter. -/
theorem claim9_counters_amended (inp : HandleInput) (st : Storage) :
    ((handleEvent inp st).result = .response 400 (.detail "invalid_payload") →
      (handleEvent inp st).counters = []) ∧
    (∀ p parsed, inp.body = some p →
        validateEvent inp.parseDate p = some parsed →
        ∃ rest,
          (handleEvent inp st).counters =
            (METRIC_EVENTS_RECEIVED ++ (vendorString parsed.vendor ++ ":"
              ++ eventTypeString parsed.event_type)) :: rest ∧
          rest.length ≤ 1) ∧
    (∀ p parsed, inp.body = some p →
        validateEvent inp.parseDate p = some parsed →
        (∀ (code : Nat) (d : String),
            (handleEvent inp st).result = .response code (.detail d) →
            code ≠ 502 →
            (handleEvent inp st).counters =
              [METRIC_EVENTS_RECEIVED ++ (vendorString parsed.vendor ++ ":"
                ++ eventTypeString parsed.event_type)]) ∧
        ((handleEvent inp st).result = .thrown →
            (handleEvent inp st).counters =
              [METRIC_EVENTS_RECEIVED ++ (vendorString parsed.vendor ++ ":"
                ++ eventTypeString parsed.event_type)])) ∧
    (∀ p parsed (code : Nat) (s : String) (r : Option String) (e : String),
        inp.body = some p →
        validateEvent inp.parseDate p = some parsed →
        (handleEvent inp st).result = .response code (.outcome s r e) →
        s = "suppressed" →
        ∃ rr, r = some rr ∧
          (handleEvent inp st).counters =
            [METRIC_EVENTS_RECEIVED ++ (vendorString parsed.vendor ++ ":"
              ++ eventTypeString parsed.event_type),
              METRIC_EVENTS_SUPPRESSED ++ rr]) ∧
    (∀ p parsed (reason : String), inp.body = some p →
        validateEvent inp.parseDate p = some parsed →
        (handleEvent inp st).result = .response 502 (.detail reason) →
        (handleEvent inp st).counters =
          [METRIC_EVENTS_RECEIVED ++ (vendorString parsed.vendor ++ ":"
            ++ eventTypeString parsed.event_type),
            METRIC_ALERTS_SENT ++ "failed"]) ∧
    (∀ p parsed (code : Nat) (r : Option String) (e : String),
        inp.body = some p →
        validateEvent inp.parseDate p = some parsed →
        (handleEvent inp st).result = .response code (.outcome "sent" r e) →
        (handleEvent inp st).counters =
          [METRIC_EVENTS_RECEIVED ++ (vendorString parsed.vendor ++ ":"
            ++ eventTypeString parsed.event_type),
            METRIC_ALERTS_SENT ++ "success"]) := by
  refine ⟨?_, ?_, ?_, ?_, ?_, ?_⟩
  · intro h
    rcases handleEvent_shape inp st with hh | ⟨m, hh⟩ | ⟨m, hh⟩ | ⟨m, hh⟩ | ⟨m, hh⟩ |
        ⟨m, rr, hrr, hh⟩ | ⟨m, reason0, hh⟩ | ⟨m, z, c, et, hh⟩
    · rw [hh]
    · rw [hh] at h
      simp at h
    · rw [hh] at h
      simp only [HandleOutput.result, HResult.response.injEq,
        RespBody.detail.injEq] at h
      exact absurd h (by decide)
    · rw [hh] at h
      simp only [HandleOutput.result, HResult.response.injEq,
        RespBody.detail.injEq] at h
      exact absurd h (by decide)
    · rw [hh] at h
      simp at h
    · rw [hh] at h
      simp at h
    · rw [hh] at h
      simp at h
    · rw [hh] at h
      simp at h
  · intro p parsed hb hv
    rcases handleEvent_validated_counters inp st p parsed hb hv with
        ⟨hres, hcnt⟩ | ⟨hres, hcnt⟩ | ⟨hres, hcnt⟩ | ⟨hres, hcnt⟩ |
        ⟨rr, hres, hcnt⟩ | ⟨reason, hres, hcnt⟩ | ⟨hres, hcnt⟩
    · exact ⟨[], hcnt, by simp⟩
    · exact ⟨[], hcnt, by simp⟩
    · exact ⟨[], hcnt, by simp⟩
    · exact ⟨[], hcnt, by simp⟩
    · exact ⟨[METRIC_EVENTS_SUPPRESSED ++ rr], hcnt, by simp⟩
    · exact ⟨[METRIC_ALERTS_SENT ++ "failed"], hcnt, by simp⟩
    · exact ⟨[METRIC_ALERTS_SENT ++ "success"], hcnt, by simp⟩
  · intro p parsed hb hv
    rcases handleEvent_validated_counters inp st p parsed hb hv with
        ⟨hres, hcnt⟩ | ⟨hres, hcnt⟩ | ⟨hres, hcnt⟩ | ⟨hres, hcnt⟩ |
        ⟨rr, hres, hcnt⟩ | ⟨reason, hres, hcnt⟩ | ⟨hres, hcnt⟩
    · exact ⟨fun code d h hcode => hcnt, fun h => absurd (hres.symm.trans h) (by simp)⟩
    · exact ⟨fun code d h hcode => hcnt, fun h => absurd (hres.symm.trans h) (by simp)⟩
    · exact ⟨fun code d h hcode => hcnt, fun h => absurd (hres.symm.trans h) (by simp)⟩
    · refine ⟨fun code d h hcode => ?_, fun h => hcnt⟩
      rw [hres] at h
      simp at h
    · refine ⟨fun code d h hcode => ?_, fun h => ?_⟩
      · rw [hres] at h
        simp at h
      · rw [hres] at h
        simp at h
    · refine ⟨fun code d h hcode => ?_, fun h => ?_⟩
      · rw [hres] at h
        simp only [HResult.response.injEq] at h
        exact absurd h.1.symm hcode
      · rw [hres] at h
        simp at h
    · refine ⟨fun code d h hcode => ?_, fun h => ?_⟩
      · rw [hres] at h
        simp at h
      · rw [hres] at h
        simp at h
  · intro p parsed code s r e hb hv h hs
    rcases handleEvent_validated_counters inp st p parsed hb hv with
        ⟨hres, hcnt⟩ | ⟨hres, hcnt⟩ | ⟨hres, hcnt⟩ | ⟨hres, hcnt⟩ |
        ⟨rr, hres, hcnt⟩ | ⟨reason, hres, hcnt⟩ | ⟨hres, hcnt⟩
    · rw [hres] at h
      simp at h
    · rw [hres] at h
      simp at h
    · rw [hres] at h
      simp at h
    · rw [hres] at h
      simp at h
    · rw [hres] at h
      simp only [HResult.response.injEq, RespBody.outcome.injEq] at h
      exact ⟨rr, h.2.2.1.symm, hcnt⟩
    · rw [hres] at h
      simp at h
    · rw [hres] at h
      simp only [HResult.response.injEq, RespBody.outcome.injEq] at h
      exact absurd (h.2.1.trans hs) (by decide)
  · intro p parsed reason0 hb hv h
    rcases handleEvent_validated_counters inp st p parsed hb hv with
        ⟨hres, hcnt⟩ | ⟨hres, hcnt⟩ | ⟨hres, hcnt⟩ | ⟨hres, hcnt⟩ |
        ⟨rr, hres, hcnt⟩ | ⟨reason, hres, hcnt⟩ | ⟨hres, hcnt⟩
    · rw [hres] at h
      simp at h
    · rw [hres] at h
      simp at h
    · rw [hres] at h
      simp at h
    · rw [hres] at h
      simp at h
    · rw [hres] at h
      simp at h
    · exact hcnt
    · rw [hres] at h
      simp at h
  · intro p parsed code r e hb hv h
    rcases handleEvent_validated_counters inp st p parsed hb hv with
        ⟨hres, hcnt⟩ | ⟨hres, hcnt⟩ | ⟨hres, hcnt⟩ | ⟨hres, hcnt⟩ |
        ⟨rr, hres, hcnt⟩ | ⟨reason, hres, hcnt⟩ | ⟨hres, hcnt⟩
    · rw [hres] at h
      simp at h
    · rw [hres] at h
      simp at h
    · rw [hres] at h
      simp at h
    · rw [hres] at h
      simp at h
    · rw [hres] at h
      simp only [HResult.response.injEq, RespBody.outcome.injEq] at h
      exact absurd h.2.1 (by decide)
    · rw [hres] at h
      simp at h
    · exact hcnt

/-- Witness for Claim C9 (amended): the malformed request increments no
counter; the unknown-zone request increments exactly the received counter
bucketed by its event's vendor and event type; the successful request
increments that received counter and the delivery success counter. -/
theorem claim9_counters_amended_witness :
    (handleEvent inpParseFail []).counters = [] ∧
    (handleEvent inpUnknownZone []).counters =
      [METRIC_EVENTS_RECEIVED ++ (vendorString unknownParsed.vendor ++ ":"
        ++ eventTypeString unknownParsed.event_type)] ∧
    (handleEvent inpSent []).counters =
      [METRIC_EVENTS_RECEIVED ++ (vendorString goodParsed.vendor ++ ":"
        ++ eventTypeString goodParsed.event_type),
        METRIC_ALERTS_SENT ++ "success"] := by
  refine ⟨?_, ?_, ?_⟩
  · exact (claim9_counters_amended inpParseFail []).1 rfl
  · exact ((claim9_counters_amended inpUnknownZone []).2.2.1 (some unknownZoneRaw)
      unknownParsed rfl (by decide)).1 400 "unknown_zone" (by decide) (by decide)
  · exact (claim9_counters_amended inpSent []).2.2.2.2.2 (some goodRaw) goodParsed
      200 none "uuid-1" rfl (by decide) (by decide)

end EzWatch
